import Mathlib

/-!
Shallow embedding of the Medical RAG chatbot backend (`app.py`, `src/prompt.py`,
`src/helper.py`).

The external collaborators are modelled as explicit inputs:
* the vector store is a flag (was `create_vector_store()` successful, i.e. is
  `vector_store` non-`None`) together with a `similarity_search` function that
  either returns the retrieved snippets or raises (`Except.error`);
* the completion service in streaming mode is a function from the built message
  list to the list of chunk contents it yields before the iteration either ends
  normally (`none`) or raises an exception with a message (`some msg`);
* the completion service in blocking mode is a function from the message list to
  either the response content or a raised exception.

Session state is the per-session `conversation_history` list, passed in and
returned explicitly.  Python strings are Lean `String`s; `str.strip()` and
`str.lower()` are modelled character-wise below.
-/

namespace MedChat

/-- Role tag of a stored conversation turn; the source stores the literal
strings "User" and "Assistant". -/
inductive Role where
  | User
  | Assistant
deriving DecidableEq, Repr

/-- Rendering of a role, as interpolated into the history line of the form
role, colon, space, content, newline. -/
def Role.render : Role → String
  | .User => "User"
  | .Assistant => "Assistant"

/-- One entry of the session conversation history: a dict with a role tag and
a content string. -/
structure Turn where
  role : Role
  content : String
deriving DecidableEq, Repr

/-- One server-sent event produced by the streaming endpoint.  The payload keys
of the JSON bodies (token, done, error) are mutually exclusive, so the
event stream is modelled as this sum. -/
inductive Event where
  | token (t : String)
  | done
  | error (msg : String)
deriving DecidableEq, Repr

/-- One LangChain message handed to the completion service:
`SystemMessage(content=...)` or `HumanMessage(content=...)`. -/
inductive Message where
  | system (content : String)
  | human (content : String)
deriving DecidableEq, Repr

/-- Character-wise ASCII lowercasing, modelling `str.lower()` as used on the
user message (the keyword set is pure ASCII). -/
def pyLower (s : String) : String :=
  String.mk (s.data.map Char.toLower)

/-- Whitespace characters removed by Python `str.strip()` with no argument
(ASCII whitespace plus the Unicode space characters). -/
def pyWhitespace : List Char :=
  [' ', '\t', '\n', '\r', '\x0b', '\x0c',
    '\x1c', '\x1d', '\x1e', '\x1f', '\x85', '\xa0',
    ' ', ' ', ' ', ' ', ' ', ' ', ' ',
    ' ', ' ', ' ', ' ', ' ',
    ' ', ' ', ' ', ' ', '　']

/-- Does `str.strip()` remove this character? -/
def isPyWhitespaceChar (c : Char) : Bool :=
  pyWhitespace.contains c

/-- Python `str.strip()`: drop leading and trailing whitespace. -/
def pyStrip (s : String) : String :=
  String.mk (((s.data.dropWhile isPyWhitespaceChar).reverse.dropWhile
    isPyWhitespaceChar).reverse)

/-- Boolean test that `pat` occurs at the start of `s`, on character lists. -/
def charsStartWith : List Char → List Char → Bool
  | [], _ => true
  | _ :: _, [] => false
  | p :: ps, c :: cs => p == c && charsStartWith ps cs

/-- Boolean test that `pat` occurs contiguously somewhere in `s`, on character
lists. -/
def charsContain (s pat : List Char) : Bool :=
  match s with
  | [] => pat.isEmpty
  | _ :: cs => charsStartWith pat s || charsContain cs pat

/-- Python substring containment `pat in s`. -/
def strContains (s pat : String) : Bool :=
  charsContain s.data pat.data

/-- The fixed system instruction `MEDICAL_SYSTEM_PROMPT` from `src/prompt.py`. -/
def MEDICAL_SYSTEM_PROMPT : String :=
  "You are MedAI, an expert Medical AI Assistant trained on clinical guidelines from WHO, NHS, Mayo Clinic, and CDC. You provide accurate, evidence-based, and empathetic health information.\n\nRESPONSE RULES:\n1. Always structure your answer clearly using headings, bullet points, or numbered lists\n2. Be specific and evidence-based — cite recognized guidelines where possible\n3. For symptoms, always include: possible causes, warning signs (red flags), and \"When to See a Doctor\"\n4. For medications, always include: what it treats, typical dosage notes, common side effects, and contraindications\n5. For lifestyle/wellness, give actionable, realistic steps\n6. NEVER guess or fabricate medical facts — if unsure, clearly say so\n7. ALWAYS add \"When to Seek Emergency Care\" if the topic could be serious\n8. Keep language clear — avoid heavy medical jargon unless asked\n\nRESPONSE FORMAT (use markdown with **bold**, bullet lists, numbered steps, and headings):\n- Start with a direct, confident answer to the question\n- Follow with organized sections using ## headings\n- End with a brief disclaimer only if the question is about symptoms/treatment\n\nIMPORTANT: You are for educational guidance only — you cannot diagnose or prescribe. Encourage professional consultation appropriately but don\x27t repeat this disclaimer excessively."

/-- The fixed disclaimer `DISCLAIMER_TEXT` from `src/prompt.py`. -/
def DISCLAIMER_TEXT : String :=
  "\n---\n> **Important:** This information is for educational purposes only and does not replace professional medical advice. For personalized diagnosis and treatment, please consult a qualified healthcare provider.\n"

/-- Interpolation `MEDICAL_ASSISTANT_PROMPT.format(context=..., chat_history=...,
question=...)`: pure string substitution into the fixed template of
`src/prompt.py`. -/
def MEDICAL_ASSISTANT_PROMPT_format (context chat_history question : String) : String :=
  "## Medical Knowledge Base Context:\n" ++ context ++
  "\n\n## Conversation History:\n" ++ chat_history ++
  "\n\n## Patient Question:\n" ++ question ++
  "\n\nProvide a thorough, accurate, and well-structured medical response. Use markdown formatting (headings, bullet lists, bold text). Be helpful, warm, and professional."

/-- Placeholder substituted when the retrieval context is empty. -/
def CONTEXT_PLACEHOLDER : String :=
  "No specific medical documents available — rely on your training knowledge."

/-- Placeholder substituted when the formatted chat history is empty. -/
def HISTORY_PLACEHOLDER : String :=
  "No previous conversation."

/-- The function `build_messages(user_message, context, chat_history)` of
`app.py`: builds the two-message list for the completion service, defaulting
empty (falsy) context and history to the fixed placeholders. -/
def build_messages (user_message context chat_history : String) : List Message :=
  let prompt := MEDICAL_ASSISTANT_PROMPT_format
    (if context ≠ "" then context else CONTEXT_PLACEHOLDER)
    (if chat_history ≠ "" then chat_history else HISTORY_PLACEHOLDER)
    user_message
  [Message.system MEDICAL_SYSTEM_PROMPT, Message.human prompt]

/-- The keyword list tested by both endpoints (the identical inline list in
`generate` and in `chat`). -/
def KEYWORDS : List String :=
  ["diagnose", "treatment", "medicine", "drug", "symptom",
    "pain", "sick", "disease", "infection", "fever", "cancer"]

/-- The disclaimer test
`any(kw in user_message.lower() for kw in [...])`, shared verbatim by the
streaming `generate` and the blocking `chat` endpoint. -/
def needs_disclaimer (user_message : String) : Bool :=
  KEYWORDS.any (fun kw => strContains (pyLower user_message) kw)

/-- The function `retrieve_relevant_context(query, vector_store, k)` of
`src/helper.py`: joins the page contents of the `similarity_search` results
with blank lines, and returns the empty string if the search raises. -/
def retrieve_relevant_context (query : String)
    (similarity_search : String → Nat → Except String (List String))
    (k : Nat) : String :=
  match similarity_search query k with
  | .ok docs => String.intercalate "\n\n" docs
  | .error _ => ""

/-- Formatting of the last 6 history entries, one line per entry (role, colon,
space, content, newline), from `get_context_and_history`. -/
def formatHistory (history : List Turn) : String :=
  (history.drop (history.length - 6)).foldl
    (fun acc msg => acc ++ msg.role.render ++ ": " ++ msg.content ++ "\n") ""

/-- The function `get_context_and_history(user_message)` of `app.py`.  If the
vector store is unavailable, or retrieval raises (caught both inside
`retrieve_relevant_context` and by the `try/except` in `app.py`), the context
degrades to the empty string. -/
def get_context_and_history (vector_store : Bool)
    (similarity_search : String → Nat → Except String (List String))
    (user_message : String) (history : List Turn) : String × String :=
  let context :=
    if vector_store then retrieve_relevant_context user_message similarity_search 4
    else ""
  (context, formatHistory history)

/-- Truncation `if len(...) > 20: ... = ...[-20:]` applied after each append of
a User/Assistant pair. -/
def capHistory (h : List Turn) : List Turn :=
  if h.length > 20 then h.drop (h.length - 20) else h

/-- Concatenation of a token list, modelling repeated `full_response += token`. -/
def concatTokens : List String → String
  | [] => ""
  | t :: ts => t ++ concatTokens ts

/-- The `for chunk in llm.stream(messages)` loop body of `generate`: each
non-empty chunk content is appended to the accumulator and emitted as one
token event, in production order. -/
def streamLoop : List String → String → List Event × String
  | [], full_response => ([], full_response)
  | t :: rest, full_response =>
    if t ≠ "" then
      let r := streamLoop rest (full_response ++ t)
      (Event.token t :: r.1, r.2)
    else
      streamLoop rest full_response

/-- The generator `generate()` nested in the `/api/stream` handler.  `chunks`
are the chunk contents yielded by `llm.stream(messages)` before the iteration
ends; `streamErr = some e` means the iteration raised an exception with message
`e` after those chunks, in which case a single terminal error event carrying it is
emitted and the history is left untouched.  On normal exhaustion the disclaimer
is appended and emitted when triggered, the User/Assistant pair is persisted
under the 20-entry cap, and a final done event is emitted. -/
def generate (chunks : List String) (streamErr : Option String)
    (user_message : String) (history : List Turn) : List Event × List Turn :=
  let r := streamLoop chunks ""
  match streamErr with
  | some e => (r.1 ++ [Event.error e], history)
  | none =>
    let nd := needs_disclaimer user_message
    let full_response := if nd then r.2 ++ DISCLAIMER_TEXT else r.2
    let disclaimerEvents := if nd then [Event.token DISCLAIMER_TEXT] else []
    let newHistory :=
      capHistory (history ++ [⟨Role.User, user_message⟩, ⟨Role.Assistant, full_response⟩])
    (r.1 ++ disclaimerEvents ++ [Event.done], newHistory)

/-- Outcome of a `/api/stream` request: 503 when the LLM client is `None`, 400
when the stripped message is empty, otherwise the SSE stream together with the
message list that was sent to the completion service. -/
inductive StreamResponse where
  | unavailable
  | emptyMessage
  | streamed (messages : List Message) (events : List Event)
deriving DecidableEq, Repr

/-- The `/api/stream` handler `stream_chat` of `app.py`, returning the response
and the session history after the request. -/
def stream_chat (llm_available : Bool) (message : String) (vector_store : Bool)
    (similarity_search : String → Nat → Except String (List String))
    (llmStream : List Message → List String × Option String)
    (history : List Turn) : StreamResponse × List Turn :=
  match llm_available with
  | false => (StreamResponse.unavailable, history)
  | true =>
    let user_message := pyStrip message
    if user_message = "" then (StreamResponse.emptyMessage, history)
    else
      let ch := get_context_and_history vector_store similarity_search user_message history
      let messages := build_messages user_message ch.1 ch.2
      let llmOut := llmStream messages
      let r := generate llmOut.1 llmOut.2 user_message history
      (StreamResponse.streamed messages r.1, r.2)

/-- Outcome of a `/api/chat` request: 503 when the LLM client is `None`, 400 on
an empty stripped message, 500 with the error text prefixed by "Error: " when
`invoke` raises, and the JSON success payload otherwise. -/
inductive ChatResponse where
  | unavailable
  | emptyMessage
  | success (response : String)
  | failure (error : String)
deriving DecidableEq, Repr

/-- The `/api/chat` handler `chat` of `app.py`, returning the response and the
session history after the request. -/
def chat (llm_available : Bool) (message : String) (vector_store : Bool)
    (similarity_search : String → Nat → Except String (List String))
    (invoke : List Message → Except String String)
    (history : List Turn) : ChatResponse × List Turn :=
  match llm_available with
  | false => (ChatResponse.unavailable, history)
  | true =>
    let user_message := pyStrip message
    if user_message = "" then (ChatResponse.emptyMessage, history)
    else
      let ch := get_context_and_history vector_store similarity_search user_message history
      let messages := build_messages user_message ch.1 ch.2
      match invoke messages with
      | .error e => (ChatResponse.failure ("Error: " ++ e), history)
      | .ok content =>
        let ai_response :=
          if needs_disclaimer user_message then content ++ DISCLAIMER_TEXT else content
        let newHistory :=
          capHistory (history ++ [⟨Role.User, user_message⟩, ⟨Role.Assistant, ai_response⟩])
        (ChatResponse.success ai_response, newHistory)

/-- Outcome of `/api/clear` (the `except` branch is unreachable in the model,
as resetting the history cannot raise). -/
inductive ClearResponse where
  | success (message : String)
deriving DecidableEq, Repr

/-- The `/api/clear` handler `clear_conversation` of `app.py`. -/
def clear_conversation (_history : List Turn) : ClearResponse × List Turn :=
  (ClearResponse.success "Conversation cleared", [])

/-- Iterated `/api/chat` requests against one session: each request carries the
client message and the content the completion service returns for it. -/
def runChatExchanges (reqs : List (String × String)) (history : List Turn) : List Turn :=
  reqs.foldl
    (fun h req =>
      (chat true req.1 false (fun _ _ => Except.error "no store")
        (fun _ => Except.ok req.2) h).2)
    history

/-! Basic lemmas about the embedded primitives. -/

theorem charsStartWith_iff (pat s : List Char) :
    charsStartWith pat s = true ↔ pat <+: s := by
  induction pat generalizing s with
  | nil => simp [charsStartWith]
  | cons p ps ih =>
    cases s with
    | nil => simp [charsStartWith]
    | cons c cs =>
      simp [charsStartWith, List.cons_prefix_cons, ih, Bool.and_eq_true, beq_iff_eq]

theorem charsContain_iff (s pat : List Char) :
    charsContain s pat = true ↔ pat <:+: s := by
  induction s with
  | nil => simp [charsContain, List.infix_nil, List.isEmpty_iff]
  | cons c cs ih =>
    simp [charsContain, List.infix_cons_iff, charsStartWith_iff, ih, Bool.or_eq_true]

theorem needs_disclaimer_iff (m : String) :
    needs_disclaimer m = true ↔
      ∃ kw ∈ KEYWORDS, kw.data <:+: (pyLower m).data := by
  simp only [needs_disclaimer, List.any_eq_true, strContains, charsContain_iff]

theorem streamLoop_eq (chunks : List String) (acc : String) :
    streamLoop chunks acc =
      ((chunks.filter (fun t => t ≠ "")).map Event.token,
        acc ++ concatTokens (chunks.filter (fun t => t ≠ ""))) := by
  induction chunks generalizing acc with
  | nil => simp [streamLoop, concatTokens]
  | cons t ts ih =>
    by_cases h : t = ""
    · subst h
      simp [streamLoop, ih, concatTokens]
    · simp [streamLoop, h, ih, concatTokens, String.append_assoc]

theorem length_capHistory (l : List Turn) :
    (capHistory l).length = min l.length 20 := by
  unfold capHistory
  split
  · simp only [List.length_drop]
    omega
  · omega

theorem capHistory_of_gt (l : List Turn) (h : l.length > 20) :
    capHistory l = l.drop (l.length - 20) := by
  unfold capHistory
  rw [if_pos h]

theorem even_length_capHistory (l : List Turn) (h : Even l.length) :
    Even (capHistory l).length := by
  rw [length_capHistory]
  rw [Nat.even_iff] at h ⊢
  omega

theorem capHistory_append_pair_of_twenty (h : List Turn) (a b : Turn)
    (hl : h.length = 20) :
    capHistory (h ++ [a, b]) = h.drop 2 ++ [a, b] := by
  rw [capHistory_of_gt _ (by simp [hl])]
  have h2 : (h ++ [a, b]).length - 20 = 2 := by simp [hl]
  rw [h2, List.drop_append_of_le_length (by omega)]

theorem chat_const_even (msg resp : String) (h : List Turn)
    (he : Even h.length) :
    Even ((chat true msg false (fun _ _ => Except.error "no store")
      (fun _ => Except.ok resp) h).2).length := by
  by_cases hm : pyStrip msg = ""
  · simpa [chat, hm] using he
  · simp only [chat, if_neg hm]
    refine even_length_capHistory _ ?_
    simp only [List.length_append, List.length_cons, List.length_nil]
    rw [Nat.even_iff] at he ⊢
    omega

theorem runChatExchanges_even (reqs : List (String × String)) :
    ∀ h : List Turn, Even h.length →
      Even ((runChatExchanges reqs h).length) := by
  induction reqs with
  | nil => intro h he; simpa [runChatExchanges] using he
  | cons r rs ih =>
    intro h he
    simp only [runChatExchanges, List.foldl_cons] at ih ⊢
    exact ih _ (chat_const_even r.1 r.2 h he)

/-! Claim theorems. -/

/-- C8: the disclaimer classifier is a pure, deterministic function of the user
message alone, and it returns true exactly when the lowercased message
contains one of the fixed keywords as a substring.  Both endpoints evaluate
exactly this function (`needs_disclaimer` is the shared inline expression of
`generate` and `chat`). -/
theorem claim_C8_disclaimer_classifier (m : String) :
    needs_disclaimer m = true ↔
      ∃ kw ∈ KEYWORDS, kw.data <:+: (pyLower m).data :=
  needs_disclaimer_iff m

/-- C9: clearing the conversation always leaves an empty history and returns
success, and clearing twice in a row is the same as clearing once. -/
theorem claim_C9_clear_idempotent (h : List Turn) :
    (clear_conversation h).2 = [] ∧
    (clear_conversation h).1 = ClearResponse.success "Conversation cleared" ∧
    clear_conversation (clear_conversation h).2 = clear_conversation h :=
  ⟨rfl, rfl, rfl⟩

/-- C10: when the completion-service client failed to initialize, both
endpoints answer with the 503 service-unavailable result for every request
body, the history is never mutated, and in particular the 400 empty-message
result is never produced, because the availability check precedes
validation. -/
theorem claim_C10_unavailable_precedes_validation (message : String) (vs : Bool)
    (ss : String → Nat → Except String (List String))
    (llm : List Message → List String × Option String)
    (inv : List Message → Except String String) (history : List Turn) :
    stream_chat false message vs ss llm history =
      (StreamResponse.unavailable, history) ∧
    chat false message vs ss inv history = (ChatResponse.unavailable, history) ∧
    (stream_chat false message vs ss llm history).1 ≠
      StreamResponse.emptyMessage ∧
    (chat false message vs ss inv history).1 ≠ ChatResponse.emptyMessage := by
  refine ⟨rfl, rfl, ?_, ?_⟩ <;> simp [stream_chat, chat]

/-- C6: an empty or whitespace-only message is rejected with the 400 result by
both endpoints, with the history unchanged, no events emitted, and no
dependence on the retrieval or completion collaborators (they are not
invoked). -/
theorem claim_C6_empty_message_rejected (message : String)
    (hempty : pyStrip message = "") (vs : Bool)
    (ss : String → Nat → Except String (List String))
    (llm : List Message → List String × Option String)
    (inv : List Message → Except String String) (history : List Turn) :
    stream_chat true message vs ss llm history =
      (StreamResponse.emptyMessage, history) ∧
    chat true message vs ss inv history = (ChatResponse.emptyMessage, history) := by
  constructor
  · simp [stream_chat, hempty]
  · simp [chat, hempty]

/-- Witness for C6 at the concrete whitespace-only message. -/
theorem claim_C6_witness :
    pyStrip "  	 " = "" ∧
    (stream_chat true "  	 " false (fun _ _ => Except.ok [])
        (fun _ => (["x"], none)) [] = (StreamResponse.emptyMessage, []) ∧
      chat true "  	 " false (fun _ _ => Except.ok [])
        (fun _ => Except.ok "r") [] = (ChatResponse.emptyMessage, [])) :=
  ⟨by decide,
    claim_C6_empty_message_rejected "  	 " (by decide) false
      (fun _ _ => Except.ok []) (fun _ => (["x"], none))
      (fun _ => Except.ok "r") []⟩

/-- C2: with the completion service yielding exactly the chunks "Hello" and
" world", the streaming endpoint emits exactly the two token events followed by
the single done event and persists the assistant content "Hello world"; in
general, every non-empty chunk is appended to the accumulator and forwarded
immediately as one token event, in production order, with no batching or
reordering. -/
theorem claim_C2_stream_round_trip :
    (stream_chat true "hello" false (fun _ _ => Except.ok [])
        (fun _ => (["Hello", " world"], none)) [] =
      (StreamResponse.streamed (build_messages "hello" "" "")
        [Event.token "Hello", Event.token " world", Event.done],
        [⟨Role.User, "hello"⟩, ⟨Role.Assistant, "Hello world"⟩])) ∧
    ∀ message : String, pyStrip message ≠ "" →
      ∀ (vs : Bool) (ss : String → Nat → Except String (List String))
        (chunks : List String) (history : List Turn),
        stream_chat true message vs ss (fun _ => (chunks, none)) history =
          (StreamResponse.streamed
            (build_messages (pyStrip message)
              (get_context_and_history vs ss (pyStrip message) history).1
              (get_context_and_history vs ss (pyStrip message) history).2)
            ((chunks.filter (fun t => t ≠ "")).map Event.token ++
              (if needs_disclaimer (pyStrip message)
                then [Event.token DISCLAIMER_TEXT] else []) ++ [Event.done]),
          capHistory (history ++ [⟨Role.User, pyStrip message⟩,
            ⟨Role.Assistant,
              if needs_disclaimer (pyStrip message)
                then concatTokens (chunks.filter (fun t => t ≠ "")) ++ DISCLAIMER_TEXT
                else concatTokens (chunks.filter (fun t => t ≠ ""))⟩])) := by
  constructor
  · rfl
  · intro message h vs ss chunks history
    simp only [stream_chat, if_neg h, generate, streamLoop_eq, String.empty_append]

/-- Witness for C2, applying the general clause at a concrete message and chunk
list containing an empty chunk. -/
theorem claim_C2_witness :
    pyStrip "hi there" ≠ "" ∧
    stream_chat true "hi there" false (fun _ _ => Except.ok [])
        (fun _ => (["a", "", "b"], none)) [] =
      (StreamResponse.streamed
        (build_messages (pyStrip "hi there")
          (get_context_and_history false (fun _ _ => Except.ok [])
            (pyStrip "hi there") []).1
          (get_context_and_history false (fun _ _ => Except.ok [])
            (pyStrip "hi there") []).2)
        ((["a", "", "b"].filter (fun t => t ≠ "")).map Event.token ++
          (if needs_disclaimer (pyStrip "hi there")
            then [Event.token DISCLAIMER_TEXT] else []) ++ [Event.done]),
      capHistory ([] ++ [⟨Role.User, pyStrip "hi there"⟩,
        ⟨Role.Assistant,
          if needs_disclaimer (pyStrip "hi there")
            then concatTokens (["a", "", "b"].filter (fun t => t ≠ "")) ++
              DISCLAIMER_TEXT
            else concatTokens (["a", "", "b"].filter (fun t => t ≠ ""))⟩])) :=
  ⟨by decide,
    claim_C2_stream_round_trip.2 "hi there" (by decide) false
      (fun _ _ => Except.ok []) ["a", "", "b"] []⟩

/-- C1: if the streaming iteration raises after yielding some chunks, the
client receives exactly the token events for the non-empty chunks already
produced followed by one terminal error event — no done event, no further
token events — and the session history is not updated; likewise the blocking
endpoint returns the 500 failure result and persists nothing when the
invocation raises. -/
theorem claim_C1_error_terminal_no_persist (message : String)
    (hmsg : pyStrip message ≠ "") (vs : Bool)
    (ss : String → Nat → Except String (List String))
    (chunks : List String) (e inv_e : String) (history : List Turn) :
    stream_chat true message vs ss (fun _ => (chunks, some e)) history =
      (StreamResponse.streamed
        (build_messages (pyStrip message)
          (get_context_and_history vs ss (pyStrip message) history).1
          (get_context_and_history vs ss (pyStrip message) history).2)
        ((chunks.filter (fun t => t ≠ "")).map Event.token ++ [Event.error e]),
        history) ∧
    chat true message vs ss (fun _ => Except.error inv_e) history =
      (ChatResponse.failure ("Error: " ++ inv_e), history) := by
  constructor
  · simp only [stream_chat, if_neg hmsg, generate, streamLoop_eq]
  · simp only [chat, if_neg hmsg]

/-- Witness for C1 at a concrete request that errors after one emitted token. -/
theorem claim_C1_witness :
    pyStrip "what is flu" ≠ "" ∧
    (stream_chat true "what is flu" false (fun _ _ => Except.ok [])
        (fun _ => (["Hi"], some "boom")) [] =
      (StreamResponse.streamed
        (build_messages (pyStrip "what is flu")
          (get_context_and_history false (fun _ _ => Except.ok [])
            (pyStrip "what is flu") []).1
          (get_context_and_history false (fun _ _ => Except.ok [])
            (pyStrip "what is flu") []).2)
        ((["Hi"].filter (fun t => t ≠ "")).map Event.token ++
          [Event.error "boom"]), []) ∧
      chat true "what is flu" false (fun _ _ => Except.ok [])
        (fun _ => Except.error "kaput") [] =
        (ChatResponse.failure ("Error: " ++ "kaput"), [])) :=
  ⟨by decide,
    claim_C1_error_terminal_no_persist "what is flu" (by decide) false
      (fun _ _ => Except.ok []) ["Hi"] "boom" "kaput" []⟩

/-- C3: when the validated user message contains one of the fixed keywords
case-insensitively, the streaming endpoint emits the disclaimer as exactly one
additional final token event after the generation stream, and both endpoints
persist an assistant turn that is the generated content with the disclaimer
text appended exactly once at the end. -/
theorem claim_C3_disclaimer_exactly_once (message : String)
    (hmsg : pyStrip message ≠ "")
    (hkw : ∃ kw ∈ KEYWORDS, kw.data <:+: (pyLower (pyStrip message)).data)
    (vs : Bool) (ss : String → Nat → Except String (List String))
    (chunks : List String) (content : String) (history : List Turn) :
    stream_chat true message vs ss (fun _ => (chunks, none)) history =
      (StreamResponse.streamed
        (build_messages (pyStrip message)
          (get_context_and_history vs ss (pyStrip message) history).1
          (get_context_and_history vs ss (pyStrip message) history).2)
        ((chunks.filter (fun t => t ≠ "")).map Event.token ++
          [Event.token DISCLAIMER_TEXT, Event.done]),
        capHistory (history ++ [⟨Role.User, pyStrip message⟩,
          ⟨Role.Assistant,
            concatTokens (chunks.filter (fun t => t ≠ "")) ++ DISCLAIMER_TEXT⟩])) ∧
    chat true message vs ss (fun _ => Except.ok content) history =
      (ChatResponse.success (content ++ DISCLAIMER_TEXT),
        capHistory (history ++ [⟨Role.User, pyStrip message⟩,
          ⟨Role.Assistant, content ++ DISCLAIMER_TEXT⟩])) := by
  have hnd : needs_disclaimer (pyStrip message) = true :=
    (needs_disclaimer_iff _).mpr hkw
  constructor
  · simp only [stream_chat, if_neg hmsg, generate, streamLoop_eq, hnd,
      String.empty_append, if_pos, List.append_assoc, List.singleton_append]
  · simp only [chat, if_neg hmsg, hnd, if_pos]

/-- Witness for C3 at the concrete message "I have a FEVER". -/
theorem claim_C3_witness :
    pyStrip "I have a FEVER" ≠ "" ∧
    (∃ kw ∈ KEYWORDS,
      kw.data <:+: (pyLower (pyStrip "I have a FEVER")).data) ∧
    chat true "I have a FEVER" false (fun _ _ => Except.ok [])
        (fun _ => Except.ok "Rest.") [] =
      (ChatResponse.success ("Rest." ++ DISCLAIMER_TEXT),
        capHistory ([] ++ [⟨Role.User, pyStrip "I have a FEVER"⟩,
          ⟨Role.Assistant, "Rest." ++ DISCLAIMER_TEXT⟩])) :=
  ⟨by decide, ⟨"fever", by decide⟩,
    (claim_C3_disclaimer_exactly_once "I have a FEVER" (by decide)
      ⟨"fever", by decide⟩ false (fun _ _ => Except.ok []) [] "Rest." []).2⟩

/-- C4: after any successful exchange the session history holds at most 20
entries, whatever its length before; and from a history of exactly 20 entries
one more successful exchange drops the two oldest entries and leaves the
length at exactly 20. -/
theorem claim_C4_history_cap (message : String) (hmsg : pyStrip message ≠ "")
    (vs : Bool) (ss : String → Nat → Except String (List String))
    (chunks : List String) (content : String) (history : List Turn) :
    ((stream_chat true message vs ss (fun _ => (chunks, none)) history).2).length ≤ 20 ∧
    ((chat true message vs ss (fun _ => Except.ok content) history).2).length ≤ 20 ∧
    (history.length = 20 →
      (chat true message vs ss (fun _ => Except.ok content) history).2 =
        history.drop 2 ++ [⟨Role.User, pyStrip message⟩,
          ⟨Role.Assistant, if needs_disclaimer (pyStrip message)
            then content ++ DISCLAIMER_TEXT else content⟩] ∧
      ((chat true message vs ss (fun _ => Except.ok content) history).2).length = 20 ∧
      (stream_chat true message vs ss (fun _ => (chunks, none)) history).2 =
        history.drop 2 ++ [⟨Role.User, pyStrip message⟩,
          ⟨Role.Assistant, if needs_disclaimer (pyStrip message)
            then concatTokens (chunks.filter (fun t => t ≠ "")) ++ DISCLAIMER_TEXT
            else concatTokens (chunks.filter (fun t => t ≠ ""))⟩]) := by
  have hs : (stream_chat true message vs ss (fun _ => (chunks, none)) history).2 =
      capHistory (history ++ [⟨Role.User, pyStrip message⟩,
        ⟨Role.Assistant, if needs_disclaimer (pyStrip message)
          then concatTokens (chunks.filter (fun t => t ≠ "")) ++ DISCLAIMER_TEXT
          else concatTokens (chunks.filter (fun t => t ≠ ""))⟩]) := by
    simp only [stream_chat, if_neg hmsg, generate, streamLoop_eq,
      String.empty_append]
  have hc : (chat true message vs ss (fun _ => Except.ok content) history).2 =
      capHistory (history ++ [⟨Role.User, pyStrip message⟩,
        ⟨Role.Assistant, if needs_disclaimer (pyStrip message)
          then content ++ DISCLAIMER_TEXT else content⟩]) := by
    simp only [chat, if_neg hmsg]
  refine ⟨?_, ?_, ?_⟩
  · rw [hs, length_capHistory]
    omega
  · rw [hc, length_capHistory]
    omega
  · intro h20
    refine ⟨?_, ?_, ?_⟩
    · rw [hc, capHistory_append_pair_of_twenty _ _ _ h20]
    · rw [hc, length_capHistory]
      simp only [List.length_append, List.length_cons, List.length_nil, h20]
      omega
    · rw [hs, capHistory_append_pair_of_twenty _ _ _ h20]

/-- Witness for C4 at a concrete 20-entry history. -/
theorem claim_C4_witness :
    pyStrip "checkup" ≠ "" ∧
    (List.replicate 20 (⟨Role.User, "u"⟩ : Turn)).length = 20 ∧
    (((stream_chat true "checkup" false (fun _ _ => Except.ok [])
        (fun _ => (["ok"], none))
        (List.replicate 20 (⟨Role.User, "u"⟩ : Turn))).2).length ≤ 20 ∧
      ((chat true "checkup" false (fun _ _ => Except.ok [])
        (fun _ => Except.ok "fine")
        (List.replicate 20 (⟨Role.User, "u"⟩ : Turn))).2).length ≤ 20) ∧
    (chat true "checkup" false (fun _ _ => Except.ok [])
        (fun _ => Except.ok "fine")
        (List.replicate 20 (⟨Role.User, "u"⟩ : Turn))).2 =
      (List.replicate 20 (⟨Role.User, "u"⟩ : Turn)).drop 2 ++
        [⟨Role.User, pyStrip "checkup"⟩,
          ⟨Role.Assistant, if needs_disclaimer (pyStrip "checkup")
            then "fine" ++ DISCLAIMER_TEXT else "fine"⟩] :=
  ⟨by decide, by decide,
    ⟨(claim_C4_history_cap "checkup" (by decide) false
        (fun _ _ => Except.ok []) ["ok"] "fine"
        (List.replicate 20 (⟨Role.User, "u"⟩ : Turn))).1,
      (claim_C4_history_cap "checkup" (by decide) false
        (fun _ _ => Except.ok []) ["ok"] "fine"
        (List.replicate 20 (⟨Role.User, "u"⟩ : Turn))).2.1⟩,
    ((claim_C4_history_cap "checkup" (by decide) false
        (fun _ _ => Except.ok []) ["ok"] "fine"
        (List.replicate 20 (⟨Role.User, "u"⟩ : Turn))).2.2 (by decide)).1⟩

/-- C5: every successful request, streaming or blocking, appends exactly the
pair of a User turn with the validated message followed by an Assistant turn
with the full response (then applies the cap); and over any sequence of
blocking exchanges starting from the empty history the length stays even. -/
theorem claim_C5_two_turns_per_success (message : String)
    (hmsg : pyStrip message ≠ "") (vs : Bool)
    (ss : String → Nat → Except String (List String))
    (chunks : List String) (content : String) (history : List Turn) :
    (stream_chat true message vs ss (fun _ => (chunks, none)) history).2 =
      capHistory (history ++ [⟨Role.User, pyStrip message⟩,
        ⟨Role.Assistant, if needs_disclaimer (pyStrip message)
          then concatTokens (chunks.filter (fun t => t ≠ "")) ++ DISCLAIMER_TEXT
          else concatTokens (chunks.filter (fun t => t ≠ ""))⟩]) ∧
    (chat true message vs ss (fun _ => Except.ok content) history).2 =
      capHistory (history ++ [⟨Role.User, pyStrip message⟩,
        ⟨Role.Assistant, if needs_disclaimer (pyStrip message)
          then content ++ DISCLAIMER_TEXT else content⟩]) ∧
    ∀ reqs : List (String × String),
      Even ((runChatExchanges reqs []).length) := by
  refine ⟨?_, ?_, ?_⟩
  · simp only [stream_chat, if_neg hmsg, generate, streamLoop_eq,
      String.empty_append]
  · simp only [chat, if_neg hmsg]
  · intro reqs
    exact runChatExchanges_even reqs [] (by simp)

/-- Witness for C5 at a concrete successful exchange. -/
theorem claim_C5_witness :
    pyStrip "hello doc" ≠ "" ∧
    (chat true "hello doc" false (fun _ _ => Except.ok [])
        (fun _ => Except.ok "Hi!") []).2 =
      capHistory ([] ++ [⟨Role.User, pyStrip "hello doc"⟩,
        ⟨Role.Assistant, if needs_disclaimer (pyStrip "hello doc")
          then "Hi!" ++ DISCLAIMER_TEXT else "Hi!"⟩]) ∧
    Even ((runChatExchanges [("a", "b")] []).length) :=
  ⟨by decide,
    (claim_C5_two_turns_per_success "hello doc" (by decide) false
      (fun _ _ => Except.ok []) [] "Hi!" []).2.1,
    (claim_C5_two_turns_per_success "hello doc" (by decide) false
      (fun _ _ => Except.ok []) [] "Hi!" []).2.2 [("a", "b")]⟩

/-- C7: a retrieval failure is absorbed and never reaches the client: the
context degrades to the empty string, the built prompt then carries the fixed
placeholder text, a failing vector store makes both endpoints behave exactly
as if no vector store were configured, and the request still completes
successfully (the blocking endpoint returns success and the stream ends with
the done event). -/
theorem claim_C7_retrieval_failure_absorbed (e q ch : String)
    (message : String) (hmsg : pyStrip message ≠ "") (history : List Turn)
    (chunks : List String) (content : String)
    (llm : List Message → List String × Option String)
    (inv : List Message → Except String String) :
    get_context_and_history true (fun _ _ => Except.error e) q history =
      ("", formatHistory history) ∧
    build_messages q "" ch =
      [Message.system MEDICAL_SYSTEM_PROMPT,
        Message.human (MEDICAL_ASSISTANT_PROMPT_format CONTEXT_PLACEHOLDER
          (if ch ≠ "" then ch else HISTORY_PLACEHOLDER) q)] ∧
    stream_chat true message true (fun _ _ => Except.error e) llm history =
      stream_chat true message false (fun _ _ => Except.error e) llm history ∧
    chat true message true (fun _ _ => Except.error e) inv history =
      chat true message false (fun _ _ => Except.error e) inv history ∧
    (chat true message true (fun _ _ => Except.error e)
        (fun _ => Except.ok content) history).1 =
      ChatResponse.success (if needs_disclaimer (pyStrip message)
        then content ++ DISCLAIMER_TEXT else content) ∧
    (stream_chat true message true (fun _ _ => Except.error e)
        (fun _ => (chunks, none)) history).1 =
      StreamResponse.streamed
        (build_messages (pyStrip message) "" (formatHistory history))
        ((chunks.filter (fun t => t ≠ "")).map Event.token ++
          (if needs_disclaimer (pyStrip message)
            then [Event.token DISCLAIMER_TEXT] else []) ++ [Event.done]) := by
  refine ⟨?_, ?_, ?_, ?_, ?_, ?_⟩
  · simp [get_context_and_history, retrieve_relevant_context]
  · simp [build_messages]
  · simp [stream_chat, if_neg hmsg, get_context_and_history,
      retrieve_relevant_context]
  · simp [chat, if_neg hmsg, get_context_and_history,
      retrieve_relevant_context]
  · simp only [chat, if_neg hmsg]
  · simp [stream_chat, if_neg hmsg, generate, streamLoop_eq,
      String.empty_append, get_context_and_history, retrieve_relevant_context]

/-- Witness for C7 at a concrete failing retrieval. -/
theorem claim_C7_witness :
    pyStrip "hi" ≠ "" ∧
    get_context_and_history true (fun _ _ => Except.error "db down") "flu" [] =
      ("", formatHistory []) ∧
    (chat true "hi" true (fun _ _ => Except.error "db down")
        (fun _ => Except.ok "ok") []).1 =
      ChatResponse.success (if needs_disclaimer (pyStrip "hi")
        then "ok" ++ DISCLAIMER_TEXT else "ok") :=
  ⟨by decide,
    (claim_C7_retrieval_failure_absorbed "db down" "flu" "" "hi" (by decide)
      [] [] "ok" (fun _ => ([], none)) (fun _ => Except.ok "ok")).1,
    (claim_C7_retrieval_failure_absorbed "db down" "flu" "" "hi" (by decide)
      [] [] "ok" (fun _ => ([], none)) (fun _ => Except.ok "ok")).2.2.2.2.1⟩

end MedChat
